import Mathlib

/-!
# Verification of the BTS-Dress-Notes server (`src/server.js`)

Shallow embedding of the server's core logic:

* the MIDI Time Code (MTC) quarter-frame decoder (`parseEasyMIDIMTC`,
  `parseCompleteMTC`, globals `quarterFrameData`, `lastFullTimecode`, ...),
* the OSC cue/act extractor (`oscServer.on('message')`),
* the shared production state (`globalState`) and the socket.io mutation
  handlers (`note-update-tags`, `create-tag`, `delete-tag`, `typing-start`,
  `typing-stop`, `time-mode-change`, `lx-cue-change`, `note-submit`,
  `comment-submit`, `chat-message`, `note-edit-text`, `comment-edit`,
  `comment-delete`, `user-name-change`, `export-request`, `disconnect`),
* the connection handler with its 15-minute anonymity `setTimeout`.

Side effects are made explicit: every handler returns the new state together
with the list of socket emissions it performs.  `io.emit` (a broadcast to all
connected sockets, overlays included) is modelled as `Target.all`;
`socket.emit` (a message to one socket) as `Target.one id`.  JavaScript
numbers used here are non-negative machine integers well below 2^31, so they
are modelled as `Nat`; the frame-rate table contains 29.97, so frame rates
are modelled as `ℚ`.  Randomly generated ids / timestamps / colors are passed
in as explicit oracle arguments (`freshId`, `now`, ...), mirroring the calls
to `Date.now()`, `Math.random()` and `new Date()` in the source.
-/

namespace BTSDressNotes

/-- Model of `globalState.timecode` / the object built by `parseCompleteMTC`
(fields `hours`, `minutes`, `seconds`, `frames`, `frameRate`, `source`). -/
structure Timecode where
  hours : Nat
  minutes : Nat
  seconds : Nat
  frames : Nat
  frameRate : ℚ
  source : String
deriving DecidableEq

/-- The `frameRates` table of `server.js` (lines 173-178):
`{0: 24, 1: 25, 2: 29.97, 3: 30}`; any other code is absent. -/
def frameRates : Nat → Option ℚ
  | 0 => some 24
  | 1 => some 25
  | 2 => some ((2997 : ℚ) / 100)
  | 3 => some 30
  | _ => Option.none

/-- The decoder's slice of the server's global mutable state:
`quarterFrameData` (an 8-slot nibble buffer), `lastQuarterFrame`,
`lastFullTimecode`, `mtcMessagesReceived` and `globalState.timecode`. -/
structure MTCState where
  quarterFrameData : Fin 8 → Nat
  lastQuarterFrame : Int
  lastFullTimecode : Option Timecode
  mtcMessagesReceived : Nat
  timecode : Timecode

/-- Initial decoder state (`new Array(8).fill(0)`, `lastQuarterFrame = -1`,
`lastFullTimecode = null`, and the initial `globalState.timecode`). -/
def initMTCState : MTCState where
  quarterFrameData := fun _ => 0
  lastQuarterFrame := -1
  lastFullTimecode := Option.none
  mtcMessagesReceived := 0
  timecode := { hours := 0, minutes := 0, seconds := 0, frames := 0,
                frameRate := 30, source := "midi" }

/-- The nibble recombination performed by `parseCompleteMTC`
(`server.js` lines 192-207), as a pure function of the buffer. -/
def recombineMTC (q : Fin 8 → Nat) : Timecode :=
  let frames := (q 1 <<< 4) ||| q 0
  let seconds := (q 3 <<< 4) ||| q 2
  let minutes := (q 5 <<< 4) ||| q 4
  let hoursAndRate := (q 7 <<< 4) ||| q 6
  let hours := hoursAndRate &&& 0x1F
  let rateCode := (hoursAndRate >>> 5) &&& 0x03
  { hours := hours, minutes := minutes, seconds := seconds, frames := frames,
    frameRate := (frameRates rateCode).getD 30, source := "midi" }

/-- The change test of `parseCompleteMTC` (lines 209-213):
`!lastFullTimecode || hours/minutes/seconds/frames differ`. -/
def timecodeChanged (last : Option Timecode) (tc : Timecode) : Bool :=
  match last with
  | Option.none => true
  | some l =>
      (l.hours != tc.hours) || (l.minutes != tc.minutes) ||
      (l.seconds != tc.seconds) || (l.frames != tc.frames)

/-- Model of `parseCompleteMTC` (lines 191-220): recombine the buffer; if the value
differs from `lastFullTimecode` in hours/minutes/seconds/frames (or there is
no previous value), replace `globalState.timecode` and `lastFullTimecode`
and emit one `timecode-update`.  The second component collects the
emitted timecodes. -/
def parseCompleteMTC (st : MTCState) : MTCState × List Timecode :=
  let newTimecode := recombineMTC st.quarterFrameData
  if timecodeChanged st.lastFullTimecode newTimecode then
    ({ st with timecode := newTimecode, lastFullTimecode := some newTimecode },
     [newTimecode])
  else
    (st, [])

/-- Model of `parseEasyMIDIMTC(messageType, value)` (lines 180-189): write the nibble
into the buffer slot, bump the diagnostic counters, and run
`parseCompleteMTC` when the slot index is 7. -/
def parseEasyMIDIMTC (st : MTCState) (messageType : Fin 8) (value : Nat) :
    MTCState × List Timecode :=
  let st1 := { st with
    quarterFrameData := Function.update st.quarterFrameData messageType value,
    mtcMessagesReceived := st.mtcMessagesReceived + 1,
    lastQuarterFrame := (messageType : Int) }
  if (messageType : Nat) = 7 then parseCompleteMTC st1 else (st1, [])

/-- Run a list of quarter-frame fragments through the decoder, collecting
all emitted timecodes in order. -/
def runMTC (st : MTCState) : List (Fin 8 × Nat) → MTCState × List Timecode
  | [] => (st, [])
  | (t, v) :: rest =>
      let r := parseEasyMIDIMTC st t v
      let r2 := runMTC r.1 rest
      (r2.1, r.2 ++ r2.2)

/-- One full 8-fragment cycle whose nibble values agree with the buffer
(each slot is re-sent the value it already holds). -/
def cycleOf (q : Fin 8 → Nat) : List (Fin 8 × Nat) :=
  [(0, q 0), (1, q 1), (2, q 2), (3, q 3), (4, q 4), (5, q 5), (6, q 6), (7, q 7)]

/-- The concrete cycle from the spec's scenario:
(0,5),(1,2),(2,10),(3,0),(4,5),(5,0),(6,8),(7,0). -/
def specCycle : List (Fin 8 × Nat) :=
  [(0, 5), (1, 2), (2, 10), (3, 0), (4, 5), (5, 0), (6, 8), (7, 0)]

/-- Claim C1.  For every quarter-frame buffer state, processing the type-7
fragment recombines `frames = buffer[1]<<4 | buffer[0]`,
`seconds = buffer[3]<<4 | buffer[2]`, `minutes = buffer[5]<<4 | buffer[4]`,
`hours = (buffer[7]<<4 | buffer[6]) & 0x1F`, and the frame rate from
`(buffer[7]<<4 | buffer[6]) >> 5 & 0x03` via the table
{0 ↦ 24, 1 ↦ 25, 2 ↦ 29.97, 3 ↦ 30} with default 30; and the concrete cycle
(0,5),(1,2),(2,10),(3,0),(4,5),(5,0),(6,8),(7,0) decodes to frames = 37 and
seconds = 10. -/
theorem mtc_decode_fields_and_spec_cycle :
    (∀ q : Fin 8 → Nat,
      (recombineMTC q).frames = (q 1 <<< 4) ||| q 0 ∧
      (recombineMTC q).seconds = (q 3 <<< 4) ||| q 2 ∧
      (recombineMTC q).minutes = (q 5 <<< 4) ||| q 4 ∧
      (recombineMTC q).hours = ((q 7 <<< 4) ||| q 6) &&& 0x1F ∧
      (recombineMTC q).frameRate =
        (frameRates ((((q 7 <<< 4) ||| q 6) >>> 5) &&& 0x03)).getD 30) ∧
    frameRates 0 = some 24 ∧ frameRates 1 = some 25 ∧
    frameRates 2 = some ((2997 : ℚ) / 100) ∧ frameRates 3 = some 30 ∧
    (runMTC initMTCState specCycle).2.map (fun tc => (tc.frames, tc.seconds))
      = [(37, 10)] := by
  refine ⟨fun q => ⟨rfl, rfl, rfl, rfl, rfl⟩, rfl, rfl, rfl, rfl, ?_⟩
  decide

/-- The spec's wording of the change condition: no timecode was emitted yet,
or the new value differs from the last emitted one in at least one of
hours, minutes, seconds, frames. -/
def timecodeDiffers (last : Option Timecode) (tc : Timecode) : Prop :=
  match last with
  | Option.none => True
  | some l =>
      l.hours ≠ tc.hours ∨ l.minutes ≠ tc.minutes ∨
      l.seconds ≠ tc.seconds ∨ l.frames ≠ tc.frames

/-- A fragment that re-sends the value its slot already holds leaves the
buffer and the last emitted timecode unchanged, and (when the decoder is
already in sync at slot 7) emits nothing. -/
theorem step_resend (st : MTCState) (t : Fin 8)
    (h : (t : Nat) = 7 →
      timecodeChanged st.lastFullTimecode (recombineMTC st.quarterFrameData) = false) :
    parseEasyMIDIMTC st t (st.quarterFrameData t) =
      ({ st with mtcMessagesReceived := st.mtcMessagesReceived + 1,
                 lastQuarterFrame := (t : Int) }, []) := by
  simp only [parseEasyMIDIMTC, Function.update_eq_self]
  by_cases h7 : (t : Nat) = 7
  · rw [if_pos h7]
    simp only [parseCompleteMTC]
    rw [if_neg]
    simp [h h7]
  · rw [if_neg h7]

/-- Re-sending any list of (slot, current value) fragments to a decoder that
is in sync (the last emitted timecode matches the buffer's recombination in
hours/minutes/seconds/frames) produces no emission at all. -/
theorem runMTC_resend (L : List (Fin 8)) :
    ∀ st : MTCState,
      timecodeChanged st.lastFullTimecode (recombineMTC st.quarterFrameData) = false →
      (runMTC st (L.map (fun t => (t, st.quarterFrameData t)))).2 = [] := by
  induction L with
  | nil => intro st _; rfl
  | cons t L ih =>
      intro st h
      simp only [List.map_cons, runMTC]
      rw [step_resend st t (fun _ => h)]
      have hrec := ih { st with mtcMessagesReceived := st.mtcMessagesReceived + 1,
                                lastQuarterFrame := (t : Int) } h
      simpa using hrec

/-- Claim C2.  A full timecode is emitted (and replaces the canonical
timecode and the last-emitted record) exactly when a fragment of type 7 is
processed and the recombined value differs from the last emitted timecode in
hours, minutes, seconds or frames (or none was emitted yet); and re-sending
all 8 fragments of a cycle the decoder is already in sync with emits zero
additional notifications. -/
theorem mtc_emit_iff_change :
    (∀ (last : Option Timecode) (tc : Timecode),
      timecodeChanged last tc = true ↔ timecodeDiffers last tc) ∧
    (∀ (st : MTCState) (t : Fin 8) (v : Nat),
      ((parseEasyMIDIMTC st t v).2 ≠ [] ↔
        ((t : Nat) = 7 ∧
          timecodeChanged st.lastFullTimecode
            (recombineMTC (Function.update st.quarterFrameData t v)) = true)) ∧
      ((parseEasyMIDIMTC st t v).2 ≠ [] →
        (parseEasyMIDIMTC st t v).1.timecode
            = recombineMTC (Function.update st.quarterFrameData t v) ∧
        (parseEasyMIDIMTC st t v).1.lastFullTimecode
            = some (recombineMTC (Function.update st.quarterFrameData t v)) ∧
        (parseEasyMIDIMTC st t v).2
            = [recombineMTC (Function.update st.quarterFrameData t v)]) ∧
      ((parseEasyMIDIMTC st t v).2 = [] →
        (parseEasyMIDIMTC st t v).1.timecode = st.timecode ∧
        (parseEasyMIDIMTC st t v).1.lastFullTimecode = st.lastFullTimecode)) ∧
    (∀ st : MTCState,
      timecodeChanged st.lastFullTimecode (recombineMTC st.quarterFrameData) = false →
      (runMTC st (cycleOf st.quarterFrameData)).2 = []) := by
  refine ⟨?_, ?_, ?_⟩
  · intro last tc
    cases last with
    | none => simp [timecodeChanged, timecodeDiffers]
    | some l => simp [timecodeChanged, timecodeDiffers, bne_iff_ne, or_assoc]
  · intro st t v
    by_cases h7 : (t : Nat) = 7
    · by_cases hc : timecodeChanged st.lastFullTimecode
        (recombineMTC (Function.update st.quarterFrameData t v)) = true
      · simp [parseEasyMIDIMTC, parseCompleteMTC, h7, hc]
      · simp [parseEasyMIDIMTC, parseCompleteMTC, h7, hc]
    · simp [parseEasyMIDIMTC, h7]
  · intro st h
    have hcy : cycleOf st.quarterFrameData
        = ([0, 1, 2, 3, 4, 5, 6, 7] : List (Fin 8)).map
            (fun t => (t, st.quarterFrameData t)) := rfl
    rw [hcy]
    exact runMTC_resend _ st h

/-- Witness for C2: after running the spec's concrete cycle, re-sending the
whole cycle emits nothing. -/
theorem mtc_emit_iff_change_witness :
    (runMTC (runMTC initMTCState specCycle).1
      (cycleOf (runMTC initMTCState specCycle).1.quarterFrameData)).2 = [] :=
  mtc_emit_iff_change.2.2 (runMTC initMTCState specCycle).1 (by decide)

/-! ## Shared production state, sessions and emissions -/

/-- JavaScript `a || b` for strings: the empty string is falsy. -/
def jsStrOr (s : Option String) (d : String) : String :=
  match s with
  | Option.none => d
  | some v => if v = "" then d else v

/-- JavaScript `a || b` for numbers: `0` is falsy. -/
def jsNumOr (s : Option ℚ) (d : ℚ) : ℚ :=
  match s with
  | Option.none => d
  | some v => if v = 0 then d else v

/-- Model of `String.prototype.toLowerCase()` (ASCII case folding, which is all the
uniqueness check needs). -/
def toLowerCase (s : String) : String :=
  ⟨s.data.map Char.toLower⟩

/-- A session record (`user` object built in the connection handler). -/
structure User where
  id : Nat
  name : String
  isTyping : Bool
  currentTimecode : Option Timecode
  currentLxCue : Option String
  joinedAt : Nat
  isOverlay : Bool
  isAnonymous : Bool
deriving DecidableEq

/-- A comment object (built in `comment-submit`). -/
structure Comment where
  id : String
  user : String
  userId : Nat
  text : String
  timestamp : String
  lastEdited : Option String
  lastEditedBy : Option String
deriving DecidableEq

/-- A note object (built in `note-submit`). -/
structure Note where
  id : String
  user : String
  userId : Nat
  text : String
  timecode : Timecode
  lxCue : String
  timestamp : String
  frameRate : ℚ
  tags : List String
  act : String
  comments : List Comment
  lastEdited : Option String
  lastEditedBy : Option String
deriving DecidableEq

/-- A tag record (`{id, name, color}`). -/
structure Tag where
  id : String
  name : String
  color : String
deriving DecidableEq

/-- A chat message (built in `chat-message`). -/
structure ChatMessage where
  id : String
  user : String
  userId : Nat
  text : String
  timestamp : String
deriving DecidableEq

/-- Model of `globalState` (users as an ordered association of socket-id keyed
records, `anonymousUsers` keyed by socket id). -/
structure GlobalState where
  timecode : Timecode
  notes : List Note
  chatMessages : List ChatMessage
  users : List User
  timeMode : String
  tags : List Tag
  currentLxCue : String
  currentAct : String
  anonymousUsers : List Nat
deriving DecidableEq

/-- Recipient scope of an emission: `io.emit` reaches every connected
socket; `socket.emit` reaches exactly one. -/
inductive Target where
  | all : Target
  | one : Nat → Target
deriving DecidableEq

/-- Projection of an emission's payload onto what the claims need:
roster payloads keep the ids they list, scalar payloads keep the string,
timecode payloads keep the timecode; bulk collection payloads (notes, tags,
chat history, ...) are recoverable from the returned state and are
abbreviated to `unit`. -/
inductive Payload where
  | unit : Payload
  | str : String → Payload
  | users : List Nat → Payload
  | tcP : Timecode → Payload
deriving DecidableEq

/-- One socket emission: scope, event name, payload projection. -/
structure Emit where
  target : Target
  event : String
  payload : Payload
deriving DecidableEq

/-- Model of `io.emit(event, payload)`. -/
def emitAll (event : String) (payload : Payload) : Emit :=
  { target := Target.all, event := event, payload := payload }

/-- Model of `socket.emit(event, payload)` for the socket with the given id. -/
def emitTo (sid : Nat) (event : String) (payload : Payload) : Emit :=
  { target := Target.one sid, event := event, payload := payload }

/-- The set of socket ids a target delivers to: `io.emit` delivers to every
connected session, overlays included. -/
def recipients (st : GlobalState) : Target → List Nat
  | Target.all => st.users.map (fun u => u.id)
  | Target.one sid => [sid]

/-- Model of `globalState.users.get(socket.id)`.  In the source each handler closes
over the `user` object created at connect time; since that object is the one
stored in the map and events only arrive while the socket is connected, the
closure is exactly the map entry. -/
def findUser (st : GlobalState) (uid : Nat) : Option User :=
  st.users.find? (fun u => u.id == uid)

/-- Replace the first element satisfying `p` by its image under `f`
(JavaScript `find` followed by in-place mutation of the found object). -/
def updateFirst (p : α → Bool) (f : α → α) : List α → List α
  | [] => []
  | x :: xs => if p x then f x :: xs else x :: updateFirst p f xs

/-- Model of `Array.from(globalState.users.values()).filter(u => !u.isOverlay)`,
projected to ids (the roster payload sent with `users-update`). -/
def filteredUserIds (st : GlobalState) : List Nat :=
  (st.users.filter (fun u => !u.isOverlay)).map (fun u => u.id)

/-- The fallback tag registry hard-coded in `server.js` (lines 41-48). -/
def defaultTags : List Tag :=
  [ { id := "safety", name := "Safety/Show Critical", color := "#E63946" },
    { id := "lighting", name := "Lighting", color := "#00B4D8" },
    { id := "sound", name := "Sound", color := "#06D6A0" },
    { id := "stage", name := "Stage", color := "#118AB2" },
    { id := "dsm", name := "DSM", color := "#8AC926" },
    { id := "set", name := "Set", color := "#FF6f91" } ]

/-- The initial `globalState` (lines 61-78). -/
def initialGlobalState : GlobalState where
  timecode := { hours := 0, minutes := 0, seconds := 0, frames := 0,
                frameRate := 30, source := "midi" }
  notes := []
  chatMessages := []
  users := []
  timeMode := "midi"
  tags := defaultTags
  currentLxCue := "1"
  currentAct := "Preshow"
  anonymousUsers := []

/-! ## OSC cue/act extractor -/

/-- Inside the `[^/]+` run of the regex `[^/]+\/(.+)`: scan to the next `/`;
the capture is everything after it and must be non-empty. -/
def scanRun : List Char → Option (List Char)
  | [] => Option.none
  | '/' :: rest => if rest = [] then Option.none else some rest
  | _ :: rest => scanRun rest

/-- Model of `value.match(/[^/]+\/(.+)/)`: the first match of the regex in the
(newline-free) payload; returns the first capture group.  Leading slashes
cannot start a match, so the capture is everything after the first `/` that
is immediately preceded by a non-slash character, provided something
follows it. -/
def cueCapture : List Char → Option (List Char)
  | [] => Option.none
  | '/' :: rest => cueCapture rest
  | _ :: rest => scanRun rest

/-- Model of `String.prototype.trim()` on the capture (ASCII whitespace). -/
def jsTrim (s : List Char) : String :=
  ⟨((s.dropWhile Char.isWhitespace).reverse.dropWhile Char.isWhitespace).reverse⟩

/-- The extracted cue label: first capture group of the match, trimmed
(`cueMatch[1]` is non-empty whenever the match succeeds, so the
`cueMatch && cueMatch[1]` guard passes exactly when the regex matches). -/
def extractCueLabel (value : String) : Option String :=
  (cueCapture value.data).map jsTrim

/-- The `oscServer.on('message')` handler (lines 117-157): active-cue
messages overwrite `currentLxCue` and always re-broadcast; pending-cue
messages are parsed and discarded; `/bts/` messages overwrite `currentAct`
only when the value differs. -/
def oscMessage (st : GlobalState) (address : String) (value : String) :
    GlobalState × List Emit :=
  if address = "/eos/out/active/cue/text" ∧ value ≠ "" then
    match extractCueLabel value with
    | some cueName =>
        ({ st with currentLxCue := cueName },
         [emitAll "lx-cue-update" (Payload.str cueName)])
    | Option.none => (st, [])
  else if address = "/eos/out/pending/cue/text" ∧ value ≠ "" then
    (st, [])
  else if address.startsWith "/bts/" then
    if value ≠ "" ∧ value ≠ st.currentAct then
      ({ st with currentAct := value }, [emitAll "act-update" (Payload.str value)])
    else (st, [])
  else (st, [])

/-- Run a list of OSC (address, value) messages, collecting emissions. -/
def oscRun (st : GlobalState) : List (String × String) → GlobalState × List Emit
  | [] => (st, [])
  | (a, v) :: rest =>
      let r := oscMessage st a v
      let r2 := oscRun r.1 rest
      (r2.1, r.2 ++ r2.2)

/-! ## Socket mutation handlers

Each handler takes the state and the id of the socket that raised the event
(plus the event payload and, where the source draws on `Date.now()` /
`Math.random()` / `new Date()`, explicit `freshId` / `now` oracles) and
returns the new state with the list of emissions. -/

/-- The `note-update-tags` handler (lines 391-399).  Note: it performs no
overlay check. -/
def noteUpdateTags (st : GlobalState) (_uid : Nat) (noteId : String)
    (tags : List String) : GlobalState × List Emit :=
  match st.notes.find? (fun n => n.id == noteId) with
  | some _ =>
      ({ st with notes := updateFirst (fun n => n.id == noteId)
                   (fun n => { n with tags := tags }) st.notes },
       [emitAll "notes-update" Payload.unit])
  | Option.none => (st, [])

/-- The `create-tag` handler (lines 402-418): upsert by id, falling back to
`generateId()` / `getRandomColor()` (passed as oracles) for missing id or
color.  Note: it performs no overlay check. -/
def createTag (st : GlobalState) (_uid : Nat) (tagId : Option String)
    (name : String) (color : Option String) (freshId : String)
    (freshColor : String) : GlobalState × List Emit :=
  let newTag : Tag := { id := jsStrOr tagId freshId, name := name,
                        color := jsStrOr color freshColor }
  let tags' :=
    match st.tags.findIdx? (fun tag => tag.id == newTag.id) with
    | some i => st.tags.set i newTag
    | Option.none => st.tags ++ [newTag]
  ({ st with tags := tags' }, [emitAll "tags-update" Payload.unit])

/-- The `delete-tag` handler (lines 421-425).  Note: it performs no overlay
check. -/
def deleteTag (st : GlobalState) (_uid : Nat) (tagId : String) :
    GlobalState × List Emit :=
  ({ st with tags := st.tags.filter (fun tag => tag.id != tagId) },
   [emitAll "tags-update" Payload.unit])

/-- The `typing-start` handler (lines 428-438). -/
def typingStart (st : GlobalState) (uid : Nat) (dataTimecode : Option Timecode)
    (dataLxCue : Option String) : GlobalState × List Emit :=
  match findUser st uid with
  | Option.none => (st, [])
  | some u =>
      if u.isOverlay then (st, [])
      else
        let users' := updateFirst (fun w => w.id == uid)
          (fun w => { w with isTyping := true,
                             currentTimecode := some (dataTimecode.getD st.timecode),
                             currentLxCue := some (jsStrOr dataLxCue st.currentLxCue) })
          st.users
        let st' := { st with users := users' }
        (st', [emitAll "users-update" (Payload.users (filteredUserIds st'))])

/-- The `typing-stop` handler (lines 441-451). -/
def typingStop (st : GlobalState) (uid : Nat) : GlobalState × List Emit :=
  match findUser st uid with
  | Option.none => (st, [])
  | some u =>
      if u.isOverlay then (st, [])
      else
        let users' := updateFirst (fun w => w.id == uid)
          (fun w => { w with isTyping := false,
                             currentTimecode := Option.none,
                             currentLxCue := Option.none }) st.users
        let st' := { st with users := users' }
        (st', [emitAll "users-update" (Payload.users (filteredUserIds st'))])

/-- The `time-mode-change` handler (lines 454-461): only the literal modes
`"midi"` and `"realtime"` are accepted. -/
def timeModeChange (st : GlobalState) (uid : Nat) (newMode : String) :
    GlobalState × List Emit :=
  match findUser st uid with
  | Option.none => (st, [])
  | some u =>
      if u.isOverlay then (st, [])
      else if newMode = "midi" ∨ newMode = "realtime" then
        ({ st with timeMode := newMode },
         [emitAll "time-mode-update" (Payload.str newMode)])
      else (st, [])

/-- The `lx-cue-change` handler (lines 464-476): manual cue input is applied
only when no OSC server is running. -/
def lxCueChange (st : GlobalState) (uid : Nat) (newCue : String)
    (oscAvailable : Bool) : GlobalState × List Emit :=
  match findUser st uid with
  | Option.none => (st, [])
  | some u =>
      if u.isOverlay then (st, [])
      else if oscAvailable then (st, [])
      else
        ({ st with currentLxCue := newCue },
         [emitAll "lx-cue-update" (Payload.str newCue)])

/-- The `note-submit` handler (lines 479-502). -/
def noteSubmit (st : GlobalState) (uid : Nat) (text : String)
    (dataTimecode : Option Timecode) (dataLxCue : Option String)
    (dataFrameRate : Option ℚ) (dataTags : Option (List String))
    (freshId : String) (now : String) : GlobalState × List Emit :=
  match findUser st uid with
  | Option.none => (st, [])
  | some u =>
      if u.isOverlay then (st, [])
      else
        let note : Note :=
          { id := freshId, user := u.name, userId := u.id, text := text,
            timecode := dataTimecode.getD st.timecode,
            lxCue := jsStrOr dataLxCue st.currentLxCue,
            timestamp := now,
            frameRate := jsNumOr dataFrameRate st.timecode.frameRate,
            tags := dataTags.getD [],
            act := st.currentAct,
            comments := [],
            lastEdited := Option.none, lastEditedBy := Option.none }
        ({ st with notes := st.notes ++ [note] },
         [emitAll "note-added" Payload.unit, emitAll "notes-update" Payload.unit])

/-- The `comment-submit` handler (lines 505-527): silently a no-op when the
referenced note does not exist (no error is emitted to anyone). -/
def commentSubmit (st : GlobalState) (uid : Nat) (noteId : String)
    (text : String) (freshId : String) (now : String) : GlobalState × List Emit :=
  match findUser st uid with
  | Option.none => (st, [])
  | some u =>
      if u.isOverlay then (st, [])
      else
        match st.notes.find? (fun n => n.id == noteId) with
        | some _ =>
            let comment : Comment :=
              { id := freshId, user := u.name, userId := u.id, text := text,
                timestamp := now,
                lastEdited := Option.none, lastEditedBy := Option.none }
            let notes' := updateFirst (fun n => n.id == noteId)
              (fun n => { n with comments := n.comments ++ [comment] }) st.notes
            ({ st with notes := notes' }, [emitAll "notes-update" Payload.unit])
        | Option.none => (st, [])

/-- The truncation of lines 544-546: `slice(-100)` once the length exceeds
100 (`slice(-100)` keeps the last 100 elements). -/
def chatTruncate (msgs2 : List ChatMessage) : List ChatMessage :=
  if msgs2.length > 100 then msgs2.drop (msgs2.length - 100) else msgs2

/-- Append a chat message and apply the sliding 100-message window
(lines 541-546: push, then truncate). -/
def appendChat (msgs : List ChatMessage) (m : ChatMessage) : List ChatMessage :=
  chatTruncate (msgs ++ [m])

/-- The `chat-message` handler (lines 530-550). -/
def chatMessage (st : GlobalState) (uid : Nat) (text : String)
    (freshId : String) (now : String) : GlobalState × List Emit :=
  match findUser st uid with
  | Option.none => (st, [])
  | some u =>
      if u.isOverlay then (st, [])
      else
        let m : ChatMessage :=
          { id := freshId, user := u.name, userId := u.id, text := text,
            timestamp := now }
        ({ st with chatMessages := appendChat st.chatMessages m },
         [emitAll "chat-message-added" (Payload.str text),
          emitAll "chat-messages-update" Payload.unit])

/-- The `note-edit-text` handler (lines 558-572): silently a no-op when the
note does not exist. -/
def noteEditText (st : GlobalState) (uid : Nat) (noteId : String)
    (newText : String) (now : String) : GlobalState × List Emit :=
  match findUser st uid with
  | Option.none => (st, [])
  | some u =>
      if u.isOverlay then (st, [])
      else
        match st.notes.find? (fun n => n.id == noteId) with
        | some _ =>
            let notes' := updateFirst (fun n => n.id == noteId)
              (fun n => { n with text := newText, lastEdited := some now,
                                 lastEditedBy := some u.name }) st.notes
            ({ st with notes := notes' }, [emitAll "notes-update" Payload.unit])
        | Option.none => (st, [])

/-- The `comment-edit` handler (lines 575-592): silently a no-op when the
note or the comment does not exist. -/
def commentEdit (st : GlobalState) (uid : Nat) (noteId : String)
    (commentId : String) (newText : String) (now : String) :
    GlobalState × List Emit :=
  match findUser st uid with
  | Option.none => (st, [])
  | some u =>
      if u.isOverlay then (st, [])
      else
        match st.notes.find? (fun n => n.id == noteId) with
        | some note =>
            match note.comments.find? (fun c => c.id == commentId) with
            | some _ =>
                let editC := fun (c : Comment) =>
                  { c with text := newText, lastEdited := some now,
                           lastEditedBy := some u.name }
                let notes' := updateFirst (fun n => n.id == noteId)
                  (fun n =>
                    { n with comments :=
                        updateFirst (fun c => c.id == commentId) editC n.comments })
                  st.notes
                ({ st with notes := notes' }, [emitAll "notes-update" Payload.unit])
            | Option.none => (st, [])
        | Option.none => (st, [])

/-- The `comment-delete` handler (lines 595-605): when the note exists it
filters the comment list and re-broadcasts `notes-update`, whether or not
the comment was present. -/
def commentDelete (st : GlobalState) (uid : Nat) (noteId : String)
    (commentId : String) : GlobalState × List Emit :=
  match findUser st uid with
  | Option.none => (st, [])
  | some u =>
      if u.isOverlay then (st, [])
      else
        match st.notes.find? (fun n => n.id == noteId) with
        | some _ =>
            let notes' := updateFirst (fun n => n.id == noteId)
              (fun n =>
                { n with comments := n.comments.filter (fun c => c.id != commentId) })
              st.notes
            ({ st with notes := notes' }, [emitAll "notes-update" Payload.unit])
        | Option.none => (st, [])

/-- The name-collision test of `user-name-change` (lines 612-614): some
other non-overlay session already holds the name, case-insensitively. -/
def isNameTaken (st : GlobalState) (uid : Nat) (newName : String) : Bool :=
  st.users.any (fun u =>
    (u.id != uid) && (toLowerCase u.name == toLowerCase newName) && !u.isOverlay)

/-- The `user-name-change` handler (lines 608-652). -/
def userNameChange (st : GlobalState) (uid : Nat) (newName : String) :
    GlobalState × List Emit :=
  match findUser st uid with
  | Option.none => (st, [])
  | some u =>
      if u.isOverlay then (st, [])
      else if isNameTaken st uid newName then
        (st, [emitTo uid "name-change-error" Payload.unit])
      else
        let users' := updateFirst (fun w => w.id == uid)
          (fun w => { w with name := newName, isAnonymous := false }) st.users
        let notes' := st.notes.map (fun note =>
          let note' := if note.userId == uid then { note with user := newName }
                       else note
          { note' with comments := note'.comments.map (fun c =>
              if c.userId == uid then { c with user := newName } else c) })
        let st' := { st with users := users', notes := notes',
                             anonymousUsers := st.anonymousUsers.filter
                               (fun i => i != uid) }
        (st', [emitAll "users-update" (Payload.users (filteredUserIds st')),
               emitAll "notes-update" Payload.unit,
               emitTo uid "name-change-success" Payload.unit])

/-- The `export-request` handler (lines 655-700): builds the export payload
(out of scope here) and sends it to the requesting socket only. -/
def exportRequest (st : GlobalState) (uid : Nat) (format : String) :
    GlobalState × List Emit :=
  match findUser st uid with
  | Option.none => (st, [])
  | some u =>
      if u.isOverlay then (st, [])
      else (st, [emitTo uid "export-data" (Payload.str format)])

/-- The `disconnect` handler (lines 702-718). -/
def disconnectHandler (st : GlobalState) (sid : Nat) : GlobalState × List Emit :=
  match findUser st sid with
  | Option.none => (st, [])
  | some u =>
      let st' := { st with users := st.users.filter (fun w => w.id != sid) }
      if u.isOverlay then (st', [])
      else
        (st', [emitAll "user-left" (Payload.str u.name),
               emitAll "users-update" (Payload.users (filteredUserIds st'))])

/-! ## Connection handler and the anonymity timer -/

/-- Model of `setTimeout(…, 900000)`: the anonymity window in milliseconds. -/
def anonymityTimeoutMs : Nat := 900000

/-- The connection handler (lines 316-388): create the session record, track
anonymous participants, arm one 15-minute timer for participants (returned
as the list of absolute fire times), and send the initial snapshot.  Model
time is milliseconds as `Nat`. -/
def connectHandler (st : GlobalState) (sid : Nat) (userIP : String)
    (isOverlay : Bool) (now : Nat) : GlobalState × List Emit × List Nat :=
  let user : User :=
    { id := sid,
      name := if isOverlay then "Overlay-" ++ userIP else userIP,
      isTyping := false,
      currentTimecode := Option.none,
      currentLxCue := Option.none,
      joinedAt := now,
      isOverlay := isOverlay,
      isAnonymous := !isOverlay }
  let st1 := { st with users := st.users ++ [user],
                       anonymousUsers := if isOverlay then st.anonymousUsers
                                         else st.anonymousUsers ++ [sid] }
  let timers := if isOverlay then [] else [now + anonymityTimeoutMs]
  let snapshot :=
    [emitTo sid "act-update" (Payload.str st1.currentAct),
     emitTo sid "timecode-update" (Payload.tcP st1.timecode),
     emitTo sid "notes-update" Payload.unit,
     emitTo sid "tags-update" Payload.unit,
     emitTo sid "time-mode-update" (Payload.str st1.timeMode),
     emitTo sid "lx-cue-update" (Payload.str st1.currentLxCue),
     emitTo sid "system-status" Payload.unit]
  let roleEmits :=
    if isOverlay then [emitTo sid "users-update" (Payload.users [])]
    else
      [emitTo sid "user-initial-name" (Payload.str userIP),
       emitTo sid "users-update" (Payload.users (filteredUserIds st1)),
       emitAll "user-joined" (Payload.str user.name),
       emitTo sid "chat-messages-update" Payload.unit]
  (st1, snapshot ++ roleEmits, timers)

/-- The anonymity `setTimeout` callback (lines 345-354): if the session is
still connected, anonymous and not an overlay, force `socket.disconnect`
(which runs the `disconnect` handler); then drop the `anonymousUsers`
entry.  The boolean records whether the forced disconnect happened. -/
def anonymityTimeout (st : GlobalState) (sid : Nat) :
    GlobalState × List Emit × Bool :=
  let r :=
    match findUser st sid with
    | some u =>
        if u.isAnonymous && !u.isOverlay then
          let d := disconnectHandler st sid
          (d.1, d.2, true)
        else (st, [], false)
    | Option.none => (st, [], false)
  ({ r.1 with anonymousUsers := r.1.anonymousUsers.filter (fun i => i != sid) },
   r.2.1, r.2.2)

/-! ## Helper lemmas about `updateFirst` -/

theorem updateFirst_eq_of_find? {α : Type} {p : α → Bool} {f : α → α} :
    ∀ {l : List α} {a : α}, l.find? p = some a → f a = a → updateFirst p f l = l := by
  intro l
  induction l with
  | nil => intro a hf _; simp at hf
  | cons x xs ih =>
      intro a hf hfa
      by_cases hx : p x = true
      · rw [List.find?_cons_of_pos _ hx] at hf
        obtain rfl : x = a := by simpa using hf
        simp [updateFirst, hx, hfa]
      · rw [List.find?_cons_of_neg _ (by simpa using hx)] at hf
        simp [updateFirst, hx, ih hf hfa]

theorem find?_updateFirst {α : Type} {p : α → Bool} {f : α → α}
    (hp : ∀ x, p (f x) = p x) :
    ∀ {l : List α} {a : α}, l.find? p = some a →
      (updateFirst p f l).find? p = some (f a) := by
  intro l
  induction l with
  | nil => intro a hf; simp at hf
  | cons x xs ih =>
      intro a hf
      by_cases hx : p x = true
      · rw [List.find?_cons_of_pos _ hx] at hf
        obtain rfl : x = a := by simpa using hf
        have hcons : updateFirst p f (x :: xs) = f x :: xs := by
          simp [updateFirst, hx]
        rw [hcons]
        exact List.find?_cons_of_pos _ (by rw [hp]; exact hx)
      · have hcons : updateFirst p f (x :: xs) = x :: updateFirst p f xs := by
          simp [updateFirst, hx]
        rw [List.find?_cons_of_neg _ hx] at hf
        rw [hcons, List.find?_cons_of_neg _ hx]
        exact ih hf

/-! ## Sessions used in the concrete scenarios -/

/-- A connected overlay session (socket id 0). -/
def overlayUser : User :=
  { id := 0, name := "Overlay-10.0.0.9", isTyping := false,
    currentTimecode := Option.none, currentLxCue := Option.none,
    joinedAt := 0, isOverlay := true, isAnonymous := false }

/-- A connected named participant session (socket id 1). -/
def participantUser : User :=
  { id := 1, name := "Alice", isTyping := false,
    currentTimecode := Option.none, currentLxCue := Option.none,
    joinedAt := 0, isOverlay := false, isAnonymous := false }

/-- A production state with a single overlay session connected. -/
def overlaySt : GlobalState :=
  { initialGlobalState with users := [overlayUser] }

/-- A production state with one participant and one overlay connected. -/
def mixedSt : GlobalState :=
  { initialGlobalState with users := [participantUser, overlayUser] }

/-- Claim C3 counterexample.  The claim says every mutating event from an
overlay session — including tag create — is rejected as a no-op with no
broadcast.  But `create-tag` has no overlay check: an overlay session's
`create-tag` mutates the tag registry and broadcasts `tags-update`. -/
theorem overlay_create_tag_counterexample :
    ¬((createTag overlaySt 0 Option.none "Props" Option.none "t1" "#FF6B6B").1
        = overlaySt ∧
      (createTag overlaySt 0 Option.none "Props" Option.none "t1" "#FF6B6B").2
        = []) := by
  decide

/-- Claim C3 (amended).  Overlay sessions are rejected as a no-op (state
unchanged, no emission) at the entry of every mutating handler that checks
`user.isOverlay`: typing start/stop, time-mode change, cue override, note
submit, comment submit/edit/delete, note text edit, chat, name change and
export.  The `note-update-tags`, `create-tag` and `delete-tag` handlers
perform no such check (see the counterexample). -/
theorem overlay_guarded_handlers_reject (st : GlobalState) (uid : Nat) (u : User)
    (hu : findUser st uid = some u) (hov : u.isOverlay = true) :
    (∀ dtc dcue, typingStart st uid dtc dcue = (st, [])) ∧
    typingStop st uid = (st, []) ∧
    (∀ m, timeModeChange st uid m = (st, [])) ∧
    (∀ c b, lxCueChange st uid c b = (st, [])) ∧
    (∀ text dtc dcue dfr dtags fid now,
      noteSubmit st uid text dtc dcue dfr dtags fid now = (st, [])) ∧
    (∀ nid text fid now, commentSubmit st uid nid text fid now = (st, [])) ∧
    (∀ text fid now, chatMessage st uid text fid now = (st, [])) ∧
    (∀ nid text now, noteEditText st uid nid text now = (st, [])) ∧
    (∀ nid cid text now, commentEdit st uid nid cid text now = (st, [])) ∧
    (∀ nid cid, commentDelete st uid nid cid = (st, [])) ∧
    (∀ nm, userNameChange st uid nm = (st, [])) ∧
    (∀ fmt, exportRequest st uid fmt = (st, [])) := by
  refine ⟨?_, ?_, ?_, ?_, ?_, ?_, ?_, ?_, ?_, ?_, ?_, ?_⟩ <;>
    intros <;>
    simp [typingStart, typingStop, timeModeChange, lxCueChange, noteSubmit,
          commentSubmit, chatMessage, noteEditText, commentEdit, commentDelete,
          userNameChange, exportRequest, hu, hov]

/-- Witness for the amended C3 at a concrete overlay session. -/
theorem overlay_guarded_handlers_reject_witness :
    typingStop overlaySt 0 = (overlaySt, []) ∧
    chatMessage overlaySt 0 "hi" "m1" "T0" = (overlaySt, []) ∧
    userNameChange overlaySt 0 "Bob" = (overlaySt, []) :=
  ⟨(overlay_guarded_handlers_reject overlaySt 0 overlayUser rfl rfl).2.1,
   (overlay_guarded_handlers_reject overlaySt 0 overlayUser rfl rfl).2.2.2.2.2.2.1
     "hi" "m1" "T0",
   (overlay_guarded_handlers_reject overlaySt 0 overlayUser rfl rfl).2.2.2.2.2.2.2.2.2.2.1
     "Bob"⟩

/-! ## C4: OSC active-cue handling -/

/-- A production state whose canonical cue is already `"A"`. -/
def cueSt : GlobalState := { initialGlobalState with currentLxCue := "A" }

/-- Claim C4 counterexample.  The claim says a cue-change notification fires
only when the extracted label differs from the current canonical cue, and
that two consecutive identical-label messages produce exactly one
notification.  But the active-cue branch performs no comparison: starting
from canonical cue "A", two messages both carrying extracted label "A"
produce two `lx-cue-update` notifications. -/
theorem osc_cue_dedup_counterexample :
    cueSt.currentLxCue = "A" ∧
    extractCueLabel "1/A" = some "A" ∧
    (oscRun cueSt [("/eos/out/active/cue/text", "1/A"),
                   ("/eos/out/active/cue/text", "1/A")]).2.countP
        (fun e => e.event == "lx-cue-update") = 2 := by
  decide

/-- Claim C4 (amended).  Every active-cue message with an extractable label
overwrites the canonical cue and emits exactly one `lx-cue-update`,
regardless of whether the label equals the current canonical cue; hence two
consecutive identical messages produce two notifications.  (Only the act
branch deduplicates.) -/
theorem osc_cue_always_emits (st : GlobalState) (value label : String)
    (hv : value ≠ "") (he : extractCueLabel value = some label) :
    oscMessage st "/eos/out/active/cue/text" value
      = ({ st with currentLxCue := label },
         [emitAll "lx-cue-update" (Payload.str label)]) ∧
    (oscRun st [("/eos/out/active/cue/text", value),
                ("/eos/out/active/cue/text", value)]).2.countP
        (fun e => e.event == "lx-cue-update") = 2 := by
  have h1 : ∀ s : GlobalState,
      oscMessage s "/eos/out/active/cue/text" value
        = ({ s with currentLxCue := label },
           [emitAll "lx-cue-update" (Payload.str label)]) := by
    intro s
    unfold oscMessage
    rw [if_pos ⟨rfl, hv⟩, he]
  refine ⟨h1 st, ?_⟩
  simp [oscRun, h1, emitAll, List.countP_cons]

/-- Witness for the amended C4 at a concrete message. -/
theorem osc_cue_always_emits_witness :
    oscMessage initialGlobalState "/eos/out/active/cue/text" "1/199 B/O 1.0 2%"
      = ({ initialGlobalState with currentLxCue := "199 B/O 1.0 2%" },
         [emitAll "lx-cue-update" (Payload.str "199 B/O 1.0 2%")]) :=
  (osc_cue_always_emits initialGlobalState "1/199 B/O 1.0 2%" "199 B/O 1.0 2%"
    (by decide) (by decide)).1

/-! ## C5: user-name-change -/

/-- Claim C5.  Renaming a non-overlay session to a name already held
case-insensitively by another non-overlay session fails with a
`name-change-error` sent only to that session and leaves the whole state
unchanged; renaming to a free name succeeds, sets `isAnonymous := false`,
rewrites the author name on every note and comment whose author session id
is this session, and reports success to the renaming session. -/
theorem user_name_change_spec (st : GlobalState) (uid : Nat) (u : User)
    (newName : String) (hu : findUser st uid = some u)
    (hov : u.isOverlay = false) :
    (isNameTaken st uid newName = true ↔
      ∃ w ∈ st.users, w.id ≠ uid ∧ toLowerCase w.name = toLowerCase newName ∧
        w.isOverlay = false) ∧
    (isNameTaken st uid newName = true →
      userNameChange st uid newName
        = (st, [emitTo uid "name-change-error" Payload.unit])) ∧
    (isNameTaken st uid newName = false →
      findUser (userNameChange st uid newName).1 uid
          = some { u with name := newName, isAnonymous := false } ∧
      (∀ n ∈ (userNameChange st uid newName).1.notes,
        (n.userId = uid → n.user = newName) ∧
        ∀ c ∈ n.comments, c.userId = uid → c.user = newName) ∧
      (userNameChange st uid newName).2.map (fun e => (e.target, e.event))
        = [(Target.all, "users-update"), (Target.all, "notes-update"),
           (Target.one uid, "name-change-success")]) := by
  refine ⟨?_, ?_, ?_⟩
  · simp [isNameTaken, List.any_eq_true, toLowerCase, and_assoc]
  · intro ht
    unfold userNameChange
    rw [hu]
    simp [hov, ht]
  · intro ht
    have hred : (userNameChange st uid newName).1.users
          = updateFirst (fun w => w.id == uid)
              (fun w => { w with name := newName, isAnonymous := false }) st.users
        ∧ (userNameChange st uid newName).1.notes
          = st.notes.map (fun note =>
              let note' := if note.userId == uid then { note with user := newName }
                           else note
              { note' with comments := note'.comments.map (fun c =>
                  if c.userId == uid then { c with user := newName } else c) })
        ∧ (userNameChange st uid newName).2.map (fun e => (e.target, e.event))
          = [(Target.all, "users-update"), (Target.all, "notes-update"),
             (Target.one uid, "name-change-success")] := by
      unfold userNameChange
      rw [hu]
      simp [hov, ht, emitAll, emitTo]
    refine ⟨?_, ?_, hred.2.2⟩
    · rw [show findUser (userNameChange st uid newName).1 uid
            = ((userNameChange st uid newName).1.users.find? (fun w => w.id == uid))
          from rfl, hred.1]
      exact find?_updateFirst
        (f := fun w => { w with name := newName, isAnonymous := false })
        (fun x => rfl) hu
    · intro n hn
      rw [hred.2.1] at hn
      obtain ⟨m, _, rfl⟩ := List.mem_map.mp hn
      constructor
      · intro hmid
        by_cases hm : (m.userId == uid) = true
        · simp [hm]
        · exfalso
          simp only [hm, Bool.false_eq_true, if_false] at hmid
          exact absurd (by simpa using hmid) (by simpa using hm)
      · intro c hc hcid
        simp only at hc
        by_cases hm : (m.userId == uid) = true
        · simp only [hm, if_true] at hc
          obtain ⟨c0, _, rfl⟩ := List.mem_map.mp hc
          by_cases hcu : (c0.userId == uid) = true
          · simp [hcu]
          · exfalso
            simp only [hcu, Bool.false_eq_true, if_false] at hcid
            exact absurd (by simpa using hcid) (by simpa using hcu)
        · simp only [hm, Bool.false_eq_true, if_false] at hc
          obtain ⟨c0, _, rfl⟩ := List.mem_map.mp hc
          by_cases hcu : (c0.userId == uid) = true
          · simp [hcu]
          · exfalso
            simp only [hcu, Bool.false_eq_true, if_false] at hcid
            exact absurd (by simpa using hcid) (by simpa using hcu)

/-- Witness for C5: the success branch at a concrete state. -/
theorem user_name_change_spec_witness :
    (userNameChange mixedSt 1 "Bob").2.map (fun e => (e.target, e.event))
      = [(Target.all, "users-update"), (Target.all, "notes-update"),
         (Target.one 1, "name-change-success")] :=
  ((user_name_change_spec mixedSt 1 participantUser "Bob" rfl rfl).2.2
    (by decide)).2.2

/-! ## C6: broadcast recipients of roster and chat events -/

/-- Claim C6 counterexample.  The claim says overlay sessions are never among
the recipients of roster/chat broadcasts.  But these events are sent with
`io.emit`, which delivers to every connected socket: the overlay session
(id 0) is among the recipients of the `chat-message-added` and
`users-update` broadcasts. -/
theorem roster_chat_overlay_recipient_counterexample :
    ¬(∀ e ∈ (chatMessage mixedSt 1 "hi" "m1" "T0").2,
        (0 : Nat) ∉ recipients mixedSt e.target) ∧
    ¬(∀ e ∈ (typingStart mixedSt 1 Option.none Option.none).2,
        (0 : Nat) ∉ recipients mixedSt e.target) ∧
    (findUser mixedSt 0).map (fun w => w.isOverlay) = some true := by
  decide

/-- Claim C6 (amended).  Roster-change and chat-addition events are emitted
with `io.emit`, whose recipient set is every connected session — overlay
sessions included.  Overlays are excluded only from the *content* of the
roster payload: every id carried by a `users-update` payload belongs to a
non-overlay session. -/
theorem roster_chat_broadcast_scope (st : GlobalState) (uid : Nat) (u : User)
    (hu : findUser st uid = some u) (hov : u.isOverlay = false) :
    (∀ st' : GlobalState, recipients st' Target.all = st'.users.map (fun w => w.id)) ∧
    (∀ text fid now, (chatMessage st uid text fid now).2.map (fun e => e.target)
        = [Target.all, Target.all]) ∧
    (∀ dtc dcue, (typingStart st uid dtc dcue).2.map (fun e => (e.target, e.event))
        = [(Target.all, "users-update")]) ∧
    (∀ st' : GlobalState, ∀ i ∈ filteredUserIds st',
        ∃ w ∈ st'.users, w.id = i ∧ w.isOverlay = false) := by
  refine ⟨fun _ => rfl, ?_, ?_, ?_⟩
  · intro text fid now
    unfold chatMessage
    rw [hu]
    simp [hov, emitAll]
  · intro dtc dcue
    unfold typingStart
    rw [hu]
    simp [hov, emitAll]
  · intro st' i hi
    unfold filteredUserIds at hi
    obtain ⟨w, hw, rfl⟩ := List.mem_map.mp hi
    obtain ⟨hwmem, hwov⟩ := List.mem_filter.mp hw
    exact ⟨w, hwmem, rfl, by simpa using hwov⟩

/-- Witness for the amended C6 at a concrete state with an overlay. -/
theorem roster_chat_broadcast_scope_witness :
    (chatMessage mixedSt 1 "hi" "m1" "T0").2.map (fun e => e.target)
      = [Target.all, Target.all] ∧
    recipients mixedSt Target.all = [1, 0] :=
  ⟨(roster_chat_broadcast_scope mixedSt 1 participantUser rfl rfl).2.1 "hi" "m1" "T0",
   (roster_chat_broadcast_scope mixedSt 1 participantUser rfl rfl).1 mixedSt⟩

/-! ## C7: the 100-message chat sliding window -/

/-- Folding submissions through the push-then-truncate step keeps exactly
the last 100 messages, in order. -/
theorem foldl_appendChat (ms : List ChatMessage) :
    List.foldl appendChat [] ms = ms.drop (ms.length - 100) := by
  induction ms using List.reverseRecOn with
  | nil => rfl
  | append_singleton ms m ih =>
      rw [List.foldl_append, List.foldl_cons, List.foldl_nil, ih]
      unfold appendChat chatTruncate
      by_cases hn : ms.length < 100
      · have h0 : ms.length - 100 = 0 := by omega
        have h1 : (ms.drop (ms.length - 100) ++ [m]).length = ms.length + 1 := by
          simp
          omega
        rw [h1]
        have h2 : ¬(ms.length + 1 > 100) := by omega
        rw [if_neg h2, h0, List.drop_zero]
        have h3 : (ms ++ [m]).length - 100 = 0 := by simp; omega
        rw [h3, List.drop_zero]
      · have hlen : (ms.drop (ms.length - 100)).length = 100 := by
          rw [List.length_drop]; omega
        have h1 : (ms.drop (ms.length - 100) ++ [m]).length = 101 := by
          simp [hlen]
        rw [h1, if_pos (by omega : (101 : ℕ) > 100)]
        have h2 : (ms.drop (ms.length - 100) ++ [m]).drop 1
            = (ms.drop (ms.length - 100)).drop 1 ++ [m] :=
          List.drop_append_of_le_length (by omega)
        rw [show (101 : ℕ) - 100 = 1 from rfl, h2, List.drop_drop]
        have h3 : (ms ++ [m]).length - 100 = ms.length - 99 := by simp
        have h4 : ms.length - 99 ≤ ms.length := by omega
        rw [h3, List.drop_append_of_le_length h4]
        have h5 : ms.length - 100 + 1 = ms.length - 99 := by omega
        rw [h5]

/-- Claim C7.  The chat log is a sliding window of at most 100 messages:
starting from an empty log, any sequence of submissions leaves exactly the
last 100 (in submission order) and never more than 100; and the
`chat-message` handler updates the log by exactly this push-then-truncate
step. -/
theorem chat_sliding_window :
    (∀ ms : List ChatMessage, List.foldl appendChat [] ms
        = ms.drop (ms.length - 100)) ∧
    (∀ ms : List ChatMessage, (List.foldl appendChat [] ms).length
        = min ms.length 100) ∧
    (∀ (st : GlobalState) (uid : Nat) (u : User) (text fid now : String),
      findUser st uid = some u → u.isOverlay = false →
      (chatMessage st uid text fid now).1.chatMessages
        = appendChat st.chatMessages
            { id := fid, user := u.name, userId := u.id, text := text,
              timestamp := now }) := by
  refine ⟨foldl_appendChat, ?_, ?_⟩
  · intro ms
    rw [foldl_appendChat, List.length_drop]
    omega
  · intro st uid u text fid now hu hov
    unfold chatMessage
    rw [hu]
    simp [hov]

/-- Witness for C7: 105 sequential submissions retain exactly the last 100,
and the handler applies the window step at a concrete state. -/
theorem chat_sliding_window_witness :
    (List.foldl appendChat []
        ((List.range 105).map (fun i =>
          ({ id := toString i, user := "Alice", userId := 1, text := toString i,
             timestamp := "T" } : ChatMessage)))).length = 100 ∧
    (chatMessage mixedSt 1 "hello" "m9" "T9").1.chatMessages
      = appendChat mixedSt.chatMessages
          { id := "m9", user := "Alice", userId := 1, text := "hello",
            timestamp := "T9" } :=
  ⟨by rw [chat_sliding_window.2.1]; decide,
   chat_sliding_window.2.2 mixedSt 1 participantUser "hello" "m9" "T9" rfl rfl⟩

/-! ## C8: operations referencing missing notes/comments -/

/-- A note authored by the participant session, used in the C8 scenario. -/
def c8Note : Note :=
  { id := "n1", user := "Alice", userId := 1, text := "a note",
    timecode := initialGlobalState.timecode, lxCue := "1", timestamp := "T0",
    frameRate := 30, tags := [], act := "Preshow", comments := [],
    lastEdited := Option.none, lastEditedBy := Option.none }

/-- A production state with one participant, one overlay and one note. -/
def c8St : GlobalState :=
  { initialGlobalState with users := [participantUser, overlayUser],
                            notes := [c8Note] }

/-- Claim C8 counterexample.  The claim says a mutation referencing a missing
noteId/commentId is a no-op with no broadcast AND the not-found error is
reported to the originating session.  But (a) `comment-submit` with an
unknown noteId emits nothing at all — no error reaches the session — and
(b) `comment-delete` with an existing note and an unknown commentId still
broadcasts `notes-update`. -/
theorem missing_reference_counterexample :
    commentSubmit c8St 1 "nope" "hi" "c1" "T1" = (c8St, []) ∧
    (commentDelete c8St 1 "n1" "c404").2 = [emitAll "notes-update" Payload.unit] := by
  decide

/-- Claim C8 (amended).  A mutation referencing a nonexistent noteId (comment
submit/edit/delete, note text edit, note tag update) is a silent no-op: no
state change, no broadcast, and no error message to anyone.  With an
existing note but a nonexistent commentId, `comment-edit` is likewise a
silent no-op, while `comment-delete` leaves the state unchanged but still
broadcasts `notes-update`. -/
theorem missing_reference_silent_noop (st : GlobalState) (uid : Nat) (u : User)
    (hu : findUser st uid = some u) (hov : u.isOverlay = false) :
    (∀ noteId, st.notes.find? (fun n => n.id == noteId) = Option.none →
      (∀ text fid now, commentSubmit st uid noteId text fid now = (st, [])) ∧
      (∀ text now, noteEditText st uid noteId text now = (st, [])) ∧
      (∀ cid text now, commentEdit st uid noteId cid text now = (st, [])) ∧
      (∀ cid, commentDelete st uid noteId cid = (st, [])) ∧
      (∀ tags, noteUpdateTags st uid noteId tags = (st, []))) ∧
    (∀ noteId note cid, st.notes.find? (fun n => n.id == noteId) = some note →
      note.comments.find? (fun c => c.id == cid) = Option.none →
      (∀ text now, commentEdit st uid noteId cid text now = (st, [])) ∧
      commentDelete st uid noteId cid
        = (st, [emitAll "notes-update" Payload.unit])) := by
  constructor
  · intro noteId hn
    refine ⟨?_, ?_, ?_, ?_, ?_⟩
    · intro text fid now
      unfold commentSubmit
      rw [hu]
      simp only [hov, Bool.false_eq_true, if_false]
      rw [hn]
    · intro text now
      unfold noteEditText
      rw [hu]
      simp only [hov, Bool.false_eq_true, if_false]
      rw [hn]
    · intro cid text now
      unfold commentEdit
      rw [hu]
      simp only [hov, Bool.false_eq_true, if_false]
      rw [hn]
    · intro cid
      unfold commentDelete
      rw [hu]
      simp only [hov, Bool.false_eq_true, if_false]
      rw [hn]
    · intro tags
      unfold noteUpdateTags
      rw [hn]
  · intro noteId note cid hfind hcnone
    have hall : ∀ c ∈ note.comments, (c.id == cid) = false := by
      intro c hc
      have := List.find?_eq_none.mp hcnone c hc
      simpa using this
    constructor
    · intro text now
      unfold commentEdit
      rw [hu]
      simp only [hov, Bool.false_eq_true, if_false]
      rw [hfind]
      simp only [hcnone]
    · unfold commentDelete
      rw [hu]
      simp only [hov, Bool.false_eq_true, if_false]
      rw [hfind]
      have hfid : updateFirst (fun n => n.id == noteId)
          (fun n => { n with comments := n.comments.filter (fun c => c.id != cid) })
          st.notes = st.notes := by
        apply updateFirst_eq_of_find? hfind
        have hfc : note.comments.filter (fun c => c.id != cid) = note.comments := by
          rw [List.filter_eq_self]
          intro c hc
          simp [bne, hall c hc]
        rw [hfc]
      simp only [hfid]

/-- Witness for the amended C8 at concrete missing references. -/
theorem missing_reference_silent_noop_witness :
    noteEditText c8St 1 "nope" "new text" "T2" = (c8St, []) ∧
    commentDelete c8St 1 "n1" "c404"
      = (c8St, [emitAll "notes-update" Payload.unit]) :=
  ⟨((missing_reference_silent_noop c8St 1 participantUser rfl rfl).1 "nope"
      (by decide)).2.1 "new text" "T2",
   ((missing_reference_silent_noop c8St 1 participantUser rfl rfl).2 "n1" c8Note
      "c404" (by decide) (by decide)).2⟩

/-! ## C9: the anonymity-expiry timer -/

/-- One participant session's lifecycle: when it connected, when (if ever)
it successfully renamed, and when (if ever) it disconnected on its own.
The armed `setTimeout` fires once, at `connectAt + anonymityTimeoutMs`. -/
structure SessionRun where
  connectAt : Nat
  renameAt : Option Nat
  clientDiscAt : Option Nat

/-- The absolute fire time of the session's single armed timer. -/
def timerFireTime (r : SessionRun) : Nat := r.connectAt + anonymityTimeoutMs

/-- Apply a state transition at time `tOpt` only if it happens strictly
before the timer fires. -/
def applyIfBefore (tOpt : Option Nat) (deadline : Nat)
    (f : GlobalState → GlobalState) (st : GlobalState) : GlobalState :=
  match tOpt with
  | some t => if t < deadline then f st else st
  | Option.none => st

/-- Execute one participant session's run against the real handlers:
connect (which arms the timer), optionally rename, optionally disconnect,
then the timer callback at its fire time.  Returns the time of the forced
disconnect, if the callback forced one. -/
def runSession (r : SessionRun) (ip newName : String) : Option Nat :=
  let c := connectHandler initialGlobalState 1 ip false r.connectAt
  let st1 := applyIfBefore r.renameAt (timerFireTime r)
    (fun s => (userNameChange s 1 newName).1) c.1
  let st2 := applyIfBefore r.clientDiscAt (timerFireTime r)
    (fun s => (disconnectHandler s 1).1) st1
  if (anonymityTimeout st2 1).2.2 then some (timerFireTime r) else Option.none

/-- Claim C9.  A participant session that never renames and never disconnects
is force-disconnected by the anonymity timer exactly
15 minutes (900000 ms) after connect and not before (the connect handler
arms exactly one timer, at exactly `connectAt + 900000`, and the forced
disconnect can only happen at that fire time); if the session renames or
disconnects strictly before the timer fires, the callback has no effect. -/
theorem anonymity_timer_spec (r : SessionRun) (ip newName : String) :
    anonymityTimeoutMs = 15 * 60 * 1000 ∧
    (connectHandler initialGlobalState 1 ip false r.connectAt).2.2
      = [r.connectAt + anonymityTimeoutMs] ∧
    (r.renameAt = Option.none → r.clientDiscAt = Option.none →
      runSession r ip newName = some (r.connectAt + anonymityTimeoutMs)) ∧
    (∀ t, r.renameAt = some t → t < timerFireTime r →
      runSession r ip newName = Option.none) ∧
    (∀ t, r.clientDiscAt = some t → t < timerFireTime r →
      runSession r ip newName = Option.none) := by
  refine ⟨rfl, rfl, ?_, ?_, ?_⟩
  · intro h1 h2
    unfold runSession applyIfBefore
    rw [h1, h2]
    rfl
  · intro t hren hlt
    unfold runSession applyIfBefore
    rw [hren]
    simp only [if_pos hlt]
    cases hcd : r.clientDiscAt with
    | none => rfl
    | some t2 =>
        by_cases h2 : t2 < timerFireTime r
        · simp only [if_pos h2]; rfl
        · simp only [if_neg h2]; rfl
  · intro t hcd hlt
    unfold runSession applyIfBefore
    rw [hcd]
    simp only [if_pos hlt]
    cases hren : r.renameAt with
    | none => rfl
    | some t2 =>
        by_cases h2 : t2 < timerFireTime r
        · simp only [if_pos h2]; rfl
        · simp only [if_neg h2]; rfl

/-- Witness for C9: a session connecting at t = 0 that never renames is
force-disconnected at exactly 900000 ms. -/
theorem anonymity_timer_spec_witness :
    runSession { connectAt := 0, renameAt := Option.none,
                 clientDiscAt := Option.none } "10.0.0.5" "Carol"
      = some 900000 :=
  (anonymity_timer_spec
      { connectAt := 0, renameAt := Option.none, clientDiscAt := Option.none }
      "10.0.0.5" "Carol").2.2.1 rfl rfl

/-! ## C10: time-mode validation -/

/-- Claim C10.  For a non-overlay session, a `time-mode-change` carrying
anything other than `"midi"` or `"realtime"` is silently ignored (state
unchanged, no broadcast); either recognized value replaces the time mode
and is broadcast. -/
theorem time_mode_validation (st : GlobalState) (uid : Nat) (u : User)
    (hu : findUser st uid = some u) (hov : u.isOverlay = false) :
    (∀ m, m ≠ "midi" → m ≠ "realtime" → timeModeChange st uid m = (st, [])) ∧
    timeModeChange st uid "midi"
      = ({ st with timeMode := "midi" },
         [emitAll "time-mode-update" (Payload.str "midi")]) ∧
    timeModeChange st uid "realtime"
      = ({ st with timeMode := "realtime" },
         [emitAll "time-mode-update" (Payload.str "realtime")]) := by
  refine ⟨?_, ?_, ?_⟩
  · intro m h1 h2
    unfold timeModeChange
    rw [hu]
    simp [hov, h1, h2]
  · unfold timeModeChange
    rw [hu]
    simp [hov]
  · unfold timeModeChange
    rw [hu]
    simp [hov]

/-- Witness for C10: a junk mode is ignored, a recognized one applied. -/
theorem time_mode_validation_witness :
    timeModeChange mixedSt 1 "cuckoo" = (mixedSt, []) ∧
    timeModeChange mixedSt 1 "realtime"
      = ({ mixedSt with timeMode := "realtime" },
         [emitAll "time-mode-update" (Payload.str "realtime")]) :=
  ⟨(time_mode_validation mixedSt 1 participantUser rfl rfl).1 "cuckoo"
      (by decide) (by decide),
   (time_mode_validation mixedSt 1 participantUser rfl rfl).2.2⟩

end BTSDressNotes
